import Mathlib

/-!
Shallow embedding of the Tempo time-entry reconciliation logic of the
`aergi` repository (files `lib/jira/tempo_data.py` and `lib/jira/jira.py`),
together with theorems settling the specification claims about it.

Python strings are modelled as Lean `String`, Python `float` values as `Rat`
(the claims only compare them for equality), Python dicts as association
lists queried with `List.lookup` (first binding wins, which agrees with the
dict semantics because dict keys are unique), and raised exceptions as the
`Except String` monad carrying the exception message.
-/

namespace Aergi

/-! ### Models of the Python string primitives used by the code -/

/-- The whitespace characters stripped by Python `str.strip()`
(restricted to the ASCII ones: space, tab, newline, vertical tab,
form feed, carriage return). -/
def isPySpace (c : Char) : Bool :=
  c = ' ' || c = '\t' || c = '\n' || c = '\x0b' || c = '\x0c' || c = '\r'

/-- Python `str.strip()`: drop whitespace from both ends. -/
def pyStrip (s : String) : String :=
  ⟨((s.data.dropWhile isPySpace).reverse.dropWhile isPySpace).reverse⟩

/-- Helper for `pySplitSpace`: split a character list on single space
occurrences, at most `maxs` times, keeping empty pieces (Python split with
an explicit single-space separator, under which runs of spaces are NOT
collapsed). -/
def pySplitSpaceAux : Nat → List Char → List (List Char)
  | 0, cs => [cs]
  | maxs + 1, cs =>
    let before := cs.takeWhile (fun c => c ≠ ' ')
    let rest := cs.dropWhile (fun c => c ≠ ' ')
    match rest with
    | [] => [cs]
    | _ :: after => before :: pySplitSpaceAux maxs after

/-- Python split of `s` on a single space with maxsplit `maxs`.  In
particular the split of the empty string is a one-element list holding the
empty string, and two consecutive spaces produce an empty piece between
them. -/
def pySplitSpace (maxs : Nat) (s : String) : List String :=
  (pySplitSpaceAux maxs s.data).map List.asString

/-- Python `a in b` on strings: substring containment. -/
def pyIn (a b : String) : Bool :=
  decide (a.data <:+: b.data)

/-- Model of the Python regex test `re.match` against the ticket pattern
`[A-Z0-9]+-[0-9]+$` viewed as a Boolean predicate:
the whole string must be a nonempty run of ASCII uppercase letters or
digits, a single hyphen, and a nonempty run of digits.  (`$` also accepts
one trailing newline, which we reproduce.)  Since neither character class
contains `-`, a matching string contains exactly one hyphen, so the test is
expressed through `List.splitOn '-'`. -/
def isTicketMatch (s : String) : Bool :=
  let cs := if s.data.getLast? = some '\n' then s.data.dropLast else s.data
  match cs.splitOn '-' with
  | [a, b] =>
      !a.isEmpty && a.all (fun c => (('A' ≤ c && c ≤ 'Z') || c.isDigit)) &&
      !b.isEmpty && b.all Char.isDigit
  | _ => false

/-- Digit list to natural number, most significant first. -/
def digitsToNat (cs : List Char) : Nat :=
  cs.foldl (fun a c => a * 10 + (c.toNat - 48)) 0

/-- Python `float(s)` on the plain decimal forms the work-log files use
(optional sign, integer part, optional fractional part; at least one digit).
Exponents and the `inf`/`nan` spellings are outside the modelled fragment.
`none` models the `ValueError` raised on anything else. -/
def pyFloat (s : String) : Option Rat :=
  let cs := (pyStrip s).data
  let signed : Rat × List Char :=
    match cs with
    | '+' :: r => (1, r)
    | '-' :: r => (-1, r)
    | r => (1, r)
  let sign := signed.1
  let ip := signed.2.takeWhile Char.isDigit
  let rest := signed.2.dropWhile Char.isDigit
  match rest with
  | [] => if ip.isEmpty then none else some (sign * digitsToNat ip)
  | '.' :: r2 =>
      let fp := r2.takeWhile Char.isDigit
      let rest2 := r2.dropWhile Char.isDigit
      if rest2.isEmpty && (!ip.isEmpty || !fp.isEmpty) then
        some (sign * ((digitsToNat ip : Rat) + (digitsToNat fp : Rat) / (10 ^ fp.length)))
      else none
  | _ => none

/-! ### Data model -/

/-- One time entry (the dict built by `parse_file_log_entry` /
`tempo_get`).  Matching in the diff engine looks only at `hours`, `issue`,
`activity` and `comment`; the remaining fields are carried along. -/
structure Entry where
  hours : Rat
  issue : String
  activity : String
  comment : String
  debug_work_item : Option String := none
  issue_summary : Option String := none
  id : Option Nat := none
deriving DecidableEq, Repr

/-- One value of the work-item mapping (`work.json`): a tracker issue key
and an optional predefined activity label. -/
structure WorkCfg where
  issue : String
  activity : Option String := none
deriving DecidableEq, Repr

/-- The comment-to-activity rules (`comment-to-act.json`): an ordered list
of literal strings (`same`) and an ordered list of (regex, activity) pairs
(`map`). -/
structure C2A where
  same : List String
  map : List (String × String)
deriving DecidableEq, Repr

/-- The `TempoData` object: its configuration tables and the per-day
entries (`self.entries`, a dict from ISO date string to entry list). -/
structure TempoData where
  home : String
  c2a : C2A
  cfg : List (String × WorkCfg)
  activity_map : List (String × String)
  issues : List (String × String)
  entries : List (String × List Entry)

/-- The per-day entry lists of a `TempoData`: `self.entries[date]` when the
date is present, and the empty list otherwise. -/
def TempoData.dayLogs (td : TempoData) (date : String) : List Entry :=
  (td.entries.lookup date).getD []

/-- The days present in a `TempoData` (`self.entries.keys()`). -/
def TempoData.days (td : TempoData) : List String :=
  td.entries.map Prod.fst

/-! ### Diff engine (`TempoData.diff`, `log_exists`, `log_matches`) -/

/-- `log_matches`: two logs match when they agree on the four keys
`hours`, `issue`, `activity`, `comment` (the Python loop over the four
keys with an early `break` amounts to this conjunction). -/
def log_matches (l1 l2 : Entry) : Bool :=
  decide (l1.hours = l2.hours) && decide (l1.issue = l2.issue) &&
  decide (l1.activity = l2.activity) && decide (l1.comment = l2.comment)

/-- `log_exists`: whether some entry recorded for `date` matches `log`. -/
def TempoData.log_exists (td : TempoData) (date : String) (log : Entry) : Bool :=
  match td.entries.lookup date with
  | some logs => logs.any (fun entry_log => log_matches entry_log log)
  | none => false

/-- `TempoData.diff`: for every date present in either operand, the list of
`self` entries with no match in `other` (the `'+'` list) and the list of
`other` entries with no match in `self` (the `'-'` list).  The Python
`set(...)` of dates is realised as `dedup` of the concatenated key lists;
the claims only depend on its membership. -/
def TempoData.diff (td other : TempoData) : List (String × (List Entry × List Entry)) :=
  let dates := (td.days ++ other.days).dedup
  dates.map (fun date =>
    (date,
     ((td.dayLogs date).filter (fun log => !other.log_exists date log),
      (other.dayLogs date).filter (fun log => !td.log_exists date log))))

/-! ### Comment-to-activity resolver (`comment_to_activity`)

The regular-expression engine behind `re.search` is external library code;
it is abstracted as a Boolean matcher `f pattern text` passed explicitly,
so every theorem below holds for an arbitrary matcher. -/

/-- The first `for val in self.c2a['same']` loop: first literal that is a
substring of the comment, `none` if the loop falls through. -/
def firstSame : List String → String → Option String
  | [], _ => none
  | v :: vs, c => if pyIn v c then some v else firstSame vs c

/-- The second `for key, val in self.c2a['map']` loop: the activity of the
first pair whose pattern matches the comment under the matcher `f`. -/
def firstMap (f : String → String → Bool) : List (String × String) → String → Option String
  | [], _ => none
  | (k, v) :: kvs, c => if f k c then some v else firstMap f kvs c

/-- `comment_to_activity`.  The Python parameter may be `None` (when a
mapping without an activity is used on a line without a comment); `val in
None` and `re.search(key, None)` then raise `TypeError`, which the
`Except` error models, unless both rule lists are empty and the loops never
run. -/
def comment_to_activity (f : String → String → Bool) (td : TempoData)
    (comment : Option String) : Except String (Option String) :=
  match comment with
  | some c =>
      match firstSame td.c2a.same c with
      | some v => .ok (some v)
      | none => .ok (firstMap f td.c2a.map c)
  | none =>
      if !td.c2a.same.isEmpty then
        .error "TypeError: argument of type NoneType is not iterable"
      else if !td.c2a.map.isEmpty then
        .error "TypeError: expected string or bytes-like object"
      else .ok none

/-! ### Work-log line parser (`parse_file_log_entry`, `parse_file_date_entries`) -/

/-- The error message of Python `hours, work_item = spl[:2]` when `spl`
has fewer than two elements. -/
def unpackError (got : Nat) : String :=
  "ValueError: not enough values to unpack (expected 2, got " ++ toString got ++ ")"

/-- The error raised when a ticket-number work item comes without a comment. -/
def noCommentError : String :=
  "Ticket number specified as work item, but no comment has been provided"

/-- The error raised when the work item is neither a mapping key nor a
ticket number. -/
def notFoundError (td : TempoData) (work_item : String) : String :=
  "Work item not found and is not a ticket: " ++ work_item ++
  ". See " ++ td.home ++ "/config/work.json and ./work-custom.json"

/-- Construction of the entry dict at the end of `parse_file_log_entry`.
The dict literal evaluates `float(hours)` before `self.activity_map[activity]`,
so a `ValueError` on the hours precedes a `KeyError` on the activity; a
`None` activity or an activity label absent from `activity_map` raises
`KeyError`. -/
def build_entry (td : TempoData) (hours work_item : String)
    (comment : Option String) (issue : String) (activity : Option String) :
    Except String Entry := do
  let use_comment := work_item ++ (match comment with
    | some c => " - " ++ c
    | none => "")
  let h ← match pyFloat hours with
    | some v => Except.ok v
    | none => Except.error ("ValueError: could not convert string to float: " ++ hours)
  let code ← match activity with
    | none => Except.error "KeyError: None"
    | some a =>
      match td.activity_map.lookup a with
      | some code => Except.ok code
      | none => Except.error ("KeyError: " ++ a)
  .ok { hours := h, issue := issue, activity := code, comment := use_comment,
        debug_work_item := some work_item,
        issue_summary := td.issues.lookup issue }

/-- `parse_file_log_entry`: split the stripped line into at most three
tokens, resolve issue and activity through the work-item mapping, the
ticket pattern and the comment rules, and build the entry.  The result is
the entry the Python code appends to `self.entries[date]`; errors model the
exceptions raised. -/
def parse_file_log_entry (f : String → String → Bool) (td : TempoData)
    (line : String) : Except String Entry :=
  let spl := pySplitSpace 2 (pyStrip line)
  match spl with
  | [] => .error (unpackError 0)
  | [_] => .error (unpackError 1)
  | hours :: work_item :: rest =>
    let comment : Option String := match rest with
      | [c] => some c
      | _ => none
    match td.cfg.lookup work_item with
    | none =>
      if isTicketMatch work_item then
        match comment with
        | none => .error noCommentError
        | some c => do
          let activity ← comment_to_activity f td (some c)
          build_entry td hours work_item comment work_item activity
      else .error (notFoundError td work_item)
    | some m =>
      match m.activity with
      | some a => build_entry td hours work_item comment m.issue (some a)
      | none => do
        let activity ← comment_to_activity f td comment
        build_entry td hours work_item comment m.issue activity

/-- The loop body of `parse_file_date_entries` over the lines of one date:
an empty (falsy) line is skipped, otherwise the line is stripped and
skipped only when the stripped form starts with `#`; everything else goes
to `parse_file_log_entry`.  Returns the entries appended for the date. -/
def parse_date_lines (f : String → String → Bool) (td : TempoData) :
    List String → Except String (List Entry)
  | [] => .ok []
  | line :: restLines =>
    if line = "" then parse_date_lines f td restLines
    else
      let l := pyStrip line
      if l.startsWith "#" then parse_date_lines f td restLines
      else do
        let e ← parse_file_log_entry f td l
        let es ← parse_date_lines f td restLines
        .ok (e :: es)

/-- `parse_file_date_entries`: `logs` may be `None` (a date with no lines),
in which case only the `setdefault` runs and no entry is appended. -/
def parse_file_date_entries (f : String → String → Bool) (td : TempoData)
    (logs : Option (List String)) : Except String (List Entry) :=
  match logs with
  | none => .ok []
  | some ls => parse_date_lines f td ls

/-! ### Activity code maps and HTTP response check (`lib/jira/jira.py`) -/

/-- `TEMPO_ACT_TO_INT_MAP`: the canonical activity-label to internal-code
table, in source order. -/
def TEMPO_ACT_TO_INT_MAP : List (String × String) :=
  [("Design", "Requirements"),
   ("Development", "Design"),
   ("Testing - Pre Deployment", "Development"),
   ("Non-Project meeting", "Non-Projectmeeting")]

/-- `TEMPO_INT_TO_ACT_MAP = {v: k for k, v in TEMPO_ACT_TO_INT_MAP.items()}`:
the reverse map, generated from the canonical table. -/
def TEMPO_INT_TO_ACT_MAP : List (String × String) :=
  TEMPO_ACT_TO_INT_MAP.map (fun kv => (kv.2, kv.1))

/-- An HTTP response as `check_http_response` sees it. -/
structure HttpResponse where
  status_code : Nat
  text : String

/-- `JiraClient.check_http_response`, parameterised by a model `loads` of
`json.loads` (external library code): `response.raise_for_status()` raises
`HTTPError` exactly for status codes 400–599; inside the handler the body
is parsed with `json.loads` — whose own exception propagates when the body
is not valid JSON — and a `RuntimeError` carrying the status code and the
parsed body is raised (the `status_code != 200` test is always true there
since `raise_for_status` only fires at 400+). -/
def check_http_response (loads : String → Except String String)
    (response : HttpResponse) : Except String Unit :=
  if 400 ≤ response.status_code ∧ response.status_code < 600 then
    if response.status_code ≠ 200 then do
      let error ← loads response.text
      .error ("HTTP error " ++ toString response.status_code ++ ": " ++ error)
    else .ok ()
  else .ok ()

/-- Model of `json.loads` on the fragment the theorems touch: leading and
trailing whitespace is ignored; the empty-object literal and plain digit
runs are accepted (returned in their textual form); any other input — in
particular one whose first character cannot start a JSON document — raises
the decoder error, exactly as `json.loads` does. -/
def json_loads_model (s : String) : Except String String :=
  let t := pyStrip s
  if t = "\x7b\x7d" then .ok t
  else if !t.isEmpty && t.data.all Char.isDigit then .ok t
  else .error "Expecting value: line 1 column 1 (char 0)"

/-! ### Specification-side matching predicates -/

/-- Equality of two entries on the four fields the diff engine compares:
hours, issue, activity and comment. -/
def MatchesOn (e1 e2 : Entry) : Prop :=
  e1.hours = e2.hours ∧ e1.issue = e2.issue ∧ e1.activity = e2.activity ∧ e1.comment = e2.comment

instance (e1 e2 : Entry) : Decidable (MatchesOn e1 e2) := by
  unfold MatchesOn; infer_instance

/-- Existence of an entry of `logs` equal to `e` on the four compared
fields. -/
def HasMatch (logs : List Entry) (e : Entry) : Prop :=
  ∃ x ∈ logs, MatchesOn x e

instance (logs : List Entry) (e : Entry) : Decidable (HasMatch logs e) := by
  unfold HasMatch; infer_instance

/-! ### Concrete fixtures used by the witnesses and counterexamples -/

/-- A matcher under which no regex matches (the comment rule tables of the
fixtures are empty, so it is never consulted anyway). -/
def noMatch : String → String → Bool := fun _ _ => false

/-- A `TempoData` with empty configuration tables and no entries. -/
def tdEmpty : TempoData :=
  { home := "/home/user/.tempi", c2a := { same := [], map := [] },
    cfg := [], activity_map := [], issues := [], entries := [] }

/-- A sample entry. -/
def entry1 : Entry :=
  { hours := 8, issue := "X-1", activity := "Design", comment := "al - x" }

/-- A `TempoData` holding one day with one entry. -/
def tdDay : TempoData :=
  { tdEmpty with entries := [("2024-01-01", [entry1])] }

/-- A `TempoData` whose work-item mapping has an alias with a predefined
activity, and an activity map giving that label a code. -/
def tdAlias : TempoData :=
  { tdEmpty with
    cfg := [("al", { issue := "X-1", activity := some "Development" })],
    activity_map := [("Development", "Design")] }

/-- A `TempoData` whose work-item mapping has an alias without an
activity. -/
def tdAliasNoAct : TempoData :=
  { tdEmpty with cfg := [("al", { issue := "X-1" })] }

/-! ### Helper lemmas -/

theorem log_matches_iff (l1 l2 : Entry) : log_matches l1 l2 = true ↔ MatchesOn l1 l2 := by
  simp [log_matches, MatchesOn, and_assoc]

theorem log_exists_eq (td : TempoData) (d : String) (e : Entry) :
    td.log_exists d e = decide (HasMatch (td.dayLogs d) e) := by
  unfold TempoData.log_exists TempoData.dayLogs
  cases h : td.entries.lookup d with
  | none => simp [HasMatch]
  | some logs =>
    simp only [Option.getD_some]
    rw [Bool.eq_iff_iff]
    simp [List.any_eq_true, HasMatch, log_matches_iff]

theorem lookup_map_self {α : Type} (g : String → α) (ds : List String) (d : String) :
    (ds.map (fun x => (x, g x))).lookup d = if d ∈ ds then some (g d) else none := by
  induction ds with
  | nil => simp
  | cons a t ih =>
    by_cases h : d = a
    · subst h; simp [List.lookup]
    · have hb : (d == a) = false := by simp [h]
      simp [List.lookup, hb, h, ih]

theorem diff_lookup (A B : TempoData) (d : String) :
    ((A.diff B).lookup d) =
      if d ∈ A.days ∨ d ∈ B.days then
        some ((A.dayLogs d).filter (fun log => !B.log_exists d log),
              (B.dayLogs d).filter (fun log => !A.log_exists d log))
      else none := by
  unfold TempoData.diff
  rw [lookup_map_self]
  simp [List.mem_dedup, List.mem_append]

theorem firstSame_eq (l : List String) (c : String) :
    firstSame l c = l.find? (fun v => pyIn v c) := by
  induction l with
  | nil => rfl
  | cons v vs ih =>
    by_cases h : pyIn v c
    · simp [firstSame, h, List.find?]
    · simp only [Bool.not_eq_true] at h
      simp [firstSame, h, List.find?, ih]

theorem pyFloat_two : pyFloat "2" = some 2 := by
  have h : pyFloat "2" = some (1 * ((digitsToNat [Char.ofNat 50] : Nat) : Rat)) := rfl
  rw [h, show digitsToNat [Char.ofNat 50] = 2 from rfl]
  norm_num

theorem firstMap_eq (f : String → String → Bool) (l : List (String × String)) (c : String) :
    firstMap f l c = (l.find? (fun kv => f kv.1 c)).map Prod.snd := by
  induction l with
  | nil => rfl
  | cons kv kvs ih =>
    obtain ⟨k, v⟩ := kv
    by_cases h : f k c
    · simp [firstMap, h, List.find?]
    · simp only [Bool.not_eq_true] at h
      simp [firstMap, h, List.find?, ih]

/-! ### Claim theorems -/

/-- Claim C1: for every pair of DaySets, the diff has a value exactly for
the days present in either operand, and for each such day the added list
holds exactly the entries of the first operand with no four-field match in
the second operand for that day, the removed list symmetrically; a day
absent from one side contributes the empty list for that side (through
`dayLogs`). -/
theorem diff_characterisation (A B : TempoData) (d : String) :
    ((A.diff B).lookup d) =
      if d ∈ A.days ∨ d ∈ B.days then
        some ((A.dayLogs d).filter (fun e => decide (¬ HasMatch (B.dayLogs d) e)),
              (B.dayLogs d).filter (fun e => decide (¬ HasMatch (A.dayLogs d) e)))
      else none := by
  rw [diff_lookup]
  have h1 : ∀ (X Y : TempoData), (X.dayLogs d).filter (fun log => !Y.log_exists d log) =
      (X.dayLogs d).filter (fun e => decide (¬ HasMatch (Y.dayLogs d) e)) := by
    intro X Y
    apply List.filter_congr
    intro e _
    rw [log_exists_eq]
    simp
  rw [h1 A B, h1 B A]

/-- Witness for C1 at a concrete pair of DaySets. -/
theorem diff_characterisation_witness :
    ((tdDay.diff tdEmpty).lookup "2024-01-01") =
      if "2024-01-01" ∈ tdDay.days ∨ "2024-01-01" ∈ tdEmpty.days then
        some ((tdDay.dayLogs "2024-01-01").filter
                (fun e => decide (¬ HasMatch (tdEmpty.dayLogs "2024-01-01") e)),
              (tdEmpty.dayLogs "2024-01-01").filter
                (fun e => decide (¬ HasMatch (tdDay.dayLogs "2024-01-01") e)))
      else none :=
  diff_characterisation tdDay tdEmpty "2024-01-01"

/-- Claim C2: diffing a DaySet against itself yields, for every day
present in it, an empty added list and an empty removed list. -/
theorem diff_self_empty (A : TempoData) (d : String) (h : d ∈ A.days) :
    (A.diff A).lookup d = some ([], []) := by
  rw [diff_lookup]
  rw [if_pos (Or.inl h)]
  have he : (A.dayLogs d).filter (fun log => !A.log_exists d log) = [] := by
    rw [List.filter_eq_nil_iff]
    intro e hmem
    have : A.log_exists d e = true := by
      rw [log_exists_eq]
      exact decide_eq_true ⟨e, hmem, rfl, rfl, rfl, rfl⟩
    simp [this]
  rw [he]

/-- Witness for C2 at a concrete one-day DaySet. -/
theorem diff_self_empty_witness :
    (tdDay.diff tdDay).lookup "2024-01-01" = some ([], []) :=
  diff_self_empty tdDay "2024-01-01" (by decide)

/-- Claim C3: the comment-to-activity resolver returns the first literal
of the ordered same-list occurring as a substring of the comment (the
literal itself being the activity); only when no literal occurs does it
return the activity of the first pattern pair matching under the matcher
`f`; when neither pass matches it returns null. -/
theorem comment_to_activity_first_match (f : String → String → Bool)
    (td : TempoData) (c : String) :
    comment_to_activity f td (some c) =
      .ok (match td.c2a.same.find? (fun v => pyIn v c) with
           | some v => some v
           | none => (td.c2a.map.find? (fun kv => f kv.1 c)).map Prod.snd) := by
  unfold comment_to_activity
  rw [← firstSame_eq, ← firstMap_eq]
  cases h : firstSame td.c2a.same c <;> simp [h]

/-- Witness for C3 at a concrete comment and rule set. -/
theorem comment_to_activity_first_match_witness :
    comment_to_activity noMatch tdEmpty (some "hello") =
      .ok (match tdEmpty.c2a.same.find? (fun v => pyIn v "hello") with
           | some v => some v
           | none => (tdEmpty.c2a.map.find? (fun kv => noMatch kv.1 "hello")).map Prod.snd) :=
  comment_to_activity_first_match noMatch tdEmpty "hello"

/-- Claim C4: a line whose work-item token is a mapping alias with a
predefined activity parses to an entry whose activity is that predefined
activity, routed through the activity code map, whatever the comment
tokens are. -/
theorem parse_alias_activity (f : String → String → Bool) (td : TempoData)
    (line hours work_item : String) (rest : List String) (m : WorkCfg)
    (a code : String) (v : Rat)
    (hsplit : pySplitSpace 2 (pyStrip line) = hours :: work_item :: rest)
    (hcfg : td.cfg.lookup work_item = some m)
    (hact : m.activity = some a)
    (hcode : td.activity_map.lookup a = some code)
    (hh : pyFloat hours = some v) :
    ∃ e, parse_file_log_entry f td line = .ok e ∧
      e.activity = code ∧ e.issue = m.issue ∧ e.hours = v := by
  simp only [parse_file_log_entry, hsplit, hcfg, hact, build_entry, hh, hcode, Except.bind]
  exact ⟨_, rfl, rfl, rfl, rfl⟩

/-- Witness for C4: the alias activity Development wins over the comment
and is stored as its internal code Design. -/
theorem parse_alias_activity_witness :
    ∃ e, parse_file_log_entry noMatch tdAlias "2 al hello there" = .ok e ∧
      e.activity = "Design" ∧ e.issue = "X-1" ∧ e.hours = 2 :=
  parse_alias_activity noMatch tdAlias "2 al hello there" "2" "al" ["hello there"]
    { issue := "X-1", activity := some "Development" } "Development" "Design" 2
    rfl rfl rfl rfl pyFloat_two

/-- Claim C5: a line whose work-item token is not a mapping key but
matches the ticket pattern, and which has no comment token, fails with the
missing-comment error. -/
theorem parse_ticket_without_comment (f : String → String → Bool)
    (td : TempoData) (line hours w : String)
    (hsplit : pySplitSpace 2 (pyStrip line) = [hours, w])
    (hcfg : td.cfg.lookup w = none)
    (hticket : isTicketMatch w = true) :
    parse_file_log_entry f td line = .error noCommentError := by
  unfold parse_file_log_entry
  rw [hsplit]
  simp [hcfg, hticket]

/-- Witness for C5 at the concrete line of the claim. -/
theorem parse_ticket_without_comment_witness :
    parse_file_log_entry noMatch tdEmpty "2 PROJ-7" = .error noCommentError :=
  parse_ticket_without_comment noMatch tdEmpty "2 PROJ-7" "2" "PROJ-7" rfl rfl rfl

/-- Claim C6: a line whose work-item token is neither a mapping key nor a
ticket-pattern match fails with the work-item-not-found error, whose
message names the offending token. -/
theorem parse_unknown_work_item (f : String → String → Bool) (td : TempoData)
    (line hours w : String) (rest : List String)
    (hsplit : pySplitSpace 2 (pyStrip line) = hours :: w :: rest)
    (hcfg : td.cfg.lookup w = none)
    (hticket : isTicketMatch w = false) :
    parse_file_log_entry f td line = .error (notFoundError td w) ∧
      w.data <:+: (notFoundError td w).data := by
  constructor
  · unfold parse_file_log_entry
    rw [hsplit]
    simp [hcfg, hticket]
  · refine ⟨("Work item not found and is not a ticket: ").data,
      (". See " ++ td.home ++ "/config/work.json and ./work-custom.json").data, ?_⟩
    simp [notFoundError, String.data_append, List.append_assoc]

/-- Witness for C6 at the concrete line of the claim. -/
theorem parse_unknown_work_item_witness :
    parse_file_log_entry noMatch tdEmpty "1.5 unknownalias some text" =
      .error (notFoundError tdEmpty "unknownalias") ∧
    ("unknownalias").data <:+: (notFoundError tdEmpty "unknownalias").data :=
  parse_unknown_work_item noMatch tdEmpty "1.5 unknownalias some text"
    "1.5" "unknownalias" ["some text"] rfl rfl rfl

/-- Counterexample to claim C7 as stated: on a line whose ticket-pattern
work item carries a comment that resolves to no activity, parsing does
fail, but the raised error is the bare key error on the null activity,
whose message names neither the offending token nor the line. -/
theorem parse_null_activity_error_lacks_token :
    parse_file_log_entry noMatch tdEmpty "2 PROJ-7 xyz" = .error "KeyError: None" ∧
    ¬ (("PROJ-7").data <:+: ("KeyError: None").data) ∧
    ¬ (("2 PROJ-7 xyz").data <:+: ("KeyError: None").data) :=
  ⟨rfl, by decide, by decide⟩

/-- Claim C7 as amended: on every work-log line for which no activity
comes from the work-item mapping (ticket-pattern token, or alias mapping
without an activity) and the comment-to-activity resolver yields a null
result (including when the comment is absent), parsing fails — though with
an error that does not in general name the offending line or token. -/
theorem parse_null_activity_fails (f : String → String → Bool) (td : TempoData)
    (line hours w : String) (rest : List String)
    (hsplit : pySplitSpace 2 (pyStrip line) = hours :: w :: rest)
    (hno : (td.cfg.lookup w = none ∧ isTicketMatch w = true) ∨
           (∃ m, td.cfg.lookup w = some m ∧ m.activity = none))
    (hnull : ∀ c, rest = [c] → comment_to_activity f td (some c) = .ok none) :
    ∃ msg, parse_file_log_entry f td line = .error msg := by
  have hbuild : ∀ issue comment, ∃ msg,
      build_entry td hours w comment issue none = .error msg := by
    intro issue comment
    unfold build_entry
    cases hf : pyFloat hours with
    | none => exact ⟨_, rfl⟩
    | some v => exact ⟨_, rfl⟩
  simp only [parse_file_log_entry, hsplit]
  rcases hno with ⟨hcfg, hticket⟩ | ⟨m, hcfg, hact⟩
  · simp only [hcfg, hticket, if_true]
    match hr : rest with
    | [] => exact ⟨_, rfl⟩
    | [c] =>
      have := hnull c rfl
      simp only [this, Except.bind]
      exact hbuild w (some c)
    | c1 :: c2 :: cs => exact ⟨_, rfl⟩
  · simp only [hcfg, hact]
    match hr : rest with
    | [] =>
      cases hs : td.c2a.same with
      | cons x xs =>
        simp only [comment_to_activity, hs]
        exact ⟨_, rfl⟩
      | nil =>
        cases hm : td.c2a.map with
        | cons y ys =>
          simp only [comment_to_activity, hs, hm]
          exact ⟨_, rfl⟩
        | nil =>
          simp only [comment_to_activity, hs, hm]
          simp only [List.isEmpty_nil, Bool.not_true, if_neg, ite_false, Bool.false_eq_true,
            if_false, Except.bind]
          exact hbuild m.issue none
    | [c] =>
      have := hnull c rfl
      simp only [this, Except.bind]
      exact hbuild m.issue (some c)
    | c1 :: c2 :: cs =>
      cases hs : td.c2a.same with
      | cons x xs =>
        simp only [comment_to_activity, hs]
        exact ⟨_, rfl⟩
      | nil =>
        cases hm : td.c2a.map with
        | cons y ys =>
          simp only [comment_to_activity, hs, hm]
          exact ⟨_, rfl⟩
        | nil =>
          simp only [comment_to_activity, hs, hm]
          simp only [List.isEmpty_nil, Bool.not_true, Bool.false_eq_true, if_false, Except.bind]
          exact hbuild m.issue none

/-- Witness for the amended C7: an alias without an activity on a line
without a comment fails to parse. -/
theorem parse_null_activity_fails_witness :
    ∃ msg, parse_file_log_entry noMatch tdAliasNoAct "2 al" = .error msg :=
  parse_null_activity_fails noMatch tdAliasNoAct "2 al" "2" "al" [] rfl
    (Or.inr ⟨{ issue := "X-1" }, rfl, rfl⟩) (fun _ h => List.noConfusion h)

/-- Counterexample to claim C8 as stated: a 304 response is not a success
status yet raises nothing, and a 500 response whose body is not valid JSON
surfaces the JSON decoder error, which carries neither the status code nor
the body. -/
theorem check_http_response_counterexample :
    check_http_response json_loads_model ⟨304, "redirect body"⟩ = .ok () ∧
    check_http_response json_loads_model ⟨500, "<html>"⟩ =
      .error "Expecting value: line 1 column 1 (char 0)" ∧
    ¬ (("500").data <:+: ("Expecting value: line 1 column 1 (char 0)").data) :=
  ⟨rfl, rfl, by decide⟩

/-- Claim C8 as amended: for every response with a 4xx or 5xx status code
whose body the JSON decoder accepts, the client raises the single generic
error carrying both the status code and the decoded body. -/
theorem check_http_response_error_carries_status_and_body
    (loads : String → Except String String) (r : HttpResponse) (v : String)
    (h4 : 400 ≤ r.status_code) (h6 : r.status_code < 600)
    (hl : loads r.text = .ok v) :
    check_http_response loads r =
      .error ("HTTP error " ++ toString r.status_code ++ ": " ++ v) ∧
    (toString r.status_code).data <:+:
      ("HTTP error " ++ toString r.status_code ++ ": " ++ v).data ∧
    v.data <:+: ("HTTP error " ++ toString r.status_code ++ ": " ++ v).data := by
  refine ⟨?_, ?_, ?_⟩
  · unfold check_http_response
    rw [if_pos ⟨h4, h6⟩, if_pos (by omega), hl]
    rfl
  · exact ⟨("HTTP error ").data, (": " ++ v).data, by
      simp [String.data_append, List.append_assoc]⟩
  · exact ⟨("HTTP error " ++ toString r.status_code ++ ": ").data, [], by
      simp [String.data_append, List.append_assoc]⟩

/-- Witness for the amended C8: a 500 response with an empty-object JSON
body raises the generic error carrying 500 and the body. -/
theorem check_http_response_error_witness :
    check_http_response json_loads_model ⟨500, "\x7b\x7d"⟩ =
      .error ("HTTP error " ++ toString (500 : Nat) ++ ": " ++ "\x7b\x7d") ∧
    (toString (500 : Nat)).data <:+:
      ("HTTP error " ++ toString (500 : Nat) ++ ": " ++ "\x7b\x7d").data ∧
    ("\x7b\x7d").data <:+:
      ("HTTP error " ++ toString (500 : Nat) ++ ": " ++ "\x7b\x7d").data :=
  check_http_response_error_carries_status_and_body json_loads_model
    ⟨500, "\x7b\x7d"⟩ "\x7b\x7d" (by decide) (by decide) rfl

/-- Claim C9: the reverse activity map is generated from the canonical
label-to-code table, and the two maps round-trip in both directions over
the entries of the tables. -/
theorem activity_code_map_round_trip :
    TEMPO_INT_TO_ACT_MAP = TEMPO_ACT_TO_INT_MAP.map (fun kv => (kv.2, kv.1)) ∧
    (∀ p ∈ TEMPO_ACT_TO_INT_MAP, TEMPO_INT_TO_ACT_MAP.lookup p.2 = some p.1) ∧
    (∀ p ∈ TEMPO_INT_TO_ACT_MAP, TEMPO_ACT_TO_INT_MAP.lookup p.2 = some p.1) :=
  ⟨rfl, by decide, by decide⟩

/-- Witness for C9: decoding the code of the first canonical pair yields
its label back. -/
theorem activity_code_map_round_trip_witness :
    TEMPO_INT_TO_ACT_MAP.lookup "Requirements" = some "Design" :=
  activity_code_map_round_trip.2.1 ("Design", "Requirements") (by decide)

/-- Claim C10: a non-empty line made only of whitespace is not skipped by
the per-date parser (the emptiness check precedes stripping); its stripped
form reaches the single-entry parser, whose split yields a single token,
so the two-element unpack fails and parsing of the date raises. -/
theorem whitespace_line_raises (f : String → String → Bool) (td : TempoData)
    (s : String) (h1 : s ≠ "") (h2 : pyStrip s = "") :
    parse_file_date_entries f td (some [s]) = .error (unpackError 1) := by
  unfold parse_file_date_entries parse_date_lines
  rw [if_neg h1, h2]
  have h3 : (("" : String).startsWith "#") = false := rfl
  simp only [h3, Bool.false_eq_true, if_false]
  rfl

/-- Witness for C10 at a single-space line. -/
theorem whitespace_line_raises_witness :
    parse_file_date_entries noMatch tdEmpty (some [" "]) = .error (unpackError 1) :=
  whitespace_line_raises noMatch tdEmpty " " (by decide) rfl

end Aergi
